import Mathlib

/-!
Shallow embedding, in Lean 4, of the asynchronous job/batch orchestration and
progress-tracking core of the Bambi-Express frontend, together with theorems
settling the behavioural claims about it.

Embedded source files:
* frontend/src/hooks/useVideoGeneration.ts — the client Status Poller hook
  (pollJobStatus, startGeneration, cancelGeneration, reset);
* the ProgressTracker component — STEPS catalogue, getStepIndex,
  getStepStatus, getLogColor;
* the BatchPanel component — the batch-detail polling effect;
* frontend/src/lib/api.ts — snakeToCamel / camelToSnake key conversion.

React state setters are modelled as explicit record updates on a session
state; browser timers (setTimeout / clearTimeout) are modelled as a list of
pending timers with fresh numeric ids, the ref pollTimeoutRef holding the id
last stored in it.  Network fetches are modelled by passing their outcome
(Except String A) as an explicit argument to the step function.
-/

namespace BambiExpress

/-- Job record as consumed by the poller (frontend/src/lib/types.ts,
interface Job).  Only the fields the embedded operations read are kept:
status (a status string) and the optional error field. -/
structure Job where
  status : String
  error : Option String
  deriving DecidableEq, Repr

/-- Result payload returned by jobsApi.getResult once a job is completed
(interface JobResult); the embedded operations only store it, so only the
videoPath field is kept. -/
structure JobResult where
  videoPath : String
  deriving DecidableEq, Repr

/-- Text analysis payload (interface TextAnalysis); only stored, never
inspected, so a single representative field is kept. -/
structure TextAnalysis where
  charCount : Nat
  deriving DecidableEq, Repr

/-- A pending browser timer: its id (as returned by setTimeout) and the
delay in milliseconds it was scheduled with. -/
structure Timer where
  id : Nat
  delay : Nat
  deriving DecidableEq, Repr

/-- State of one useVideoGeneration hook instance: the five useState cells,
the two useRef cells (pollTimeoutRef, jobIdRef), plus the timer environment
(pendingTimers = timers scheduled and not yet fired or cleared, nextTimerId
= next fresh timer id the browser will hand out). -/
structure GenState where
  isGenerating : Bool
  currentJob : Option Job
  result : Option JobResult
  error : Option String
  textAnalysis : Option TextAnalysis
  pollTimeoutRef : Option Nat
  jobIdRef : Option String
  pendingTimers : List Timer
  nextTimerId : Nat
  deriving DecidableEq, Repr

/-- Initial state of the hook: all useState cells at their initial values,
both refs null, no timer pending.  Browser timer ids start at 1. -/
def initialState : GenState :=
  { isGenerating := false, currentJob := none, result := none, error := none,
    textAnalysis := none, pollTimeoutRef := none, jobIdRef := none,
    pendingTimers := [], nextTimerId := 1 }

/-- Default value of the pollInterval option of useVideoGeneration
(const pollInterval = 2000 in the destructuring of options). -/
def defaultPollInterval : Nat := 2000

/-- Effect of pollTimeoutRef.current = setTimeout(pollJobStatus, delay):
a fresh timer is scheduled and its id stored in the ref. -/
def schedulePoll (s : GenState) (delay : Nat) : GenState :=
  { s with pollTimeoutRef := some s.nextTimerId,
           pendingTimers := s.pendingTimers ++ [⟨s.nextTimerId, delay⟩],
           nextTimerId := s.nextTimerId + 1 }

/-- Effect of clearTimeout(ref) guarded by if (ref.current): the timer whose
id is stored in the ref, when one is stored, stops being pending. -/
def clearTimeoutRef (timers : List Timer) (ref : Option Nat) : List Timer :=
  match ref with
  | none => timers
  | some t => timers.filter (fun tm => tm.id ≠ t)

/-- A pending timer fires: it is consumed (no longer pending).  Its callback
(pollJobStatus) is modelled separately. -/
def fireTimer (s : GenState) (t : Nat) : GenState :=
  { s with pendingTimers := s.pendingTimers.filter (fun tm => tm.id ≠ t) }

/-- JavaScript expression status.error || defaultMsg: an absent or empty
(falsy) error string falls back to the default. -/
def jsOrElse (o : Option String) (dflt : String) : String :=
  match o with
  | some v => if v = "" then dflt else v
  | none => dflt

/-- One run of pollJobStatus (useVideoGeneration.ts lines 47-74).  The
outcome of jobsApi.getStatus is passed as fetchStatus, the outcome of
jobsApi.getResult (consulted only when the fetched status is completed) as
fetchResult.  On a fetch failure the catch block sets the error message and
marks generation inactive; no retry is scheduled anywhere in the hook. -/
def pollJobStatus (pollInterval : Nat) (s : GenState)
    (fetchStatus : Except String Job) (fetchResult : Except String JobResult) :
    GenState :=
  match s.jobIdRef with
  | none => s
  | some _ =>
    match fetchStatus with
    | Except.error msg => { s with error := some msg, isGenerating := false }
    | Except.ok j =>
      let s1 := { s with currentJob := some j }
      if j.status = "completed" then
        match fetchResult with
        | Except.ok r => { s1 with result := some r, isGenerating := false }
        | Except.error msg => { s1 with error := some msg, isGenerating := false }
      else if j.status = "failed" ∨ j.status = "cancelled" then
        { s1 with isGenerating := false, error := some (jsOrElse j.error "Job failed") }
      else
        schedulePoll s1 pollInterval

/-- One run of startGeneration (useVideoGeneration.ts lines 82-102).  The
outcome of videoApi.generate is passed as genResult (ok = the new jobId).
On success the jobId is stored and a first poll is scheduled; note that the
previous content of pollTimeoutRef is overwritten without clearTimeout. -/
def startGeneration (pollInterval : Nat) (s : GenState)
    (genResult : Except String String) : GenState :=
  let s1 := { s with isGenerating := true, error := none, result := none }
  match genResult with
  | Except.ok jobId => schedulePoll { s1 with jobIdRef := some jobId } pollInterval
  | Except.error msg => { s1 with error := some msg, isGenerating := false }

/-- One run of cancelGeneration (useVideoGeneration.ts lines 104-116).  With
no stored jobId it returns at once; when jobsApi.cancel rejects, the catch
block only logs, leaving the state unchanged; on success the tracked timer
is cleared and generation marked inactive. -/
def cancelGeneration (s : GenState) (cancelResult : Except String Unit) :
    GenState :=
  match s.jobIdRef with
  | none => s
  | some _ =>
    match cancelResult with
    | Except.error _ => s
    | Except.ok _ =>
      { s with pendingTimers := clearTimeoutRef s.pendingTimers s.pollTimeoutRef,
               isGenerating := false }

/-- One run of reset (useVideoGeneration.ts lines 118-128): the tracked
timer is cleared, the jobId ref nulled, and every useState cell restored to
its initial value.  The ref pollTimeoutRef itself is not nulled by the
source, only the timer it points to is cleared. -/
def reset (s : GenState) : GenState :=
  { s with pendingTimers := clearTimeoutRef s.pendingTimers s.pollTimeoutRef,
           jobIdRef := none, isGenerating := false, currentJob := none,
           result := none, error := none, textAnalysis := none }

/-- One entry of the STEPS catalogue of the ProgressTracker component. -/
structure Step where
  key : String
  label : String
  activeLabel : String
  deriving DecidableEq, Repr

/-- The fixed nine-step catalogue STEPS of the ProgressTracker component. -/
def STEPS : List Step :=
  [⟨"processing_text", "Processando texto", "Processando texto..."⟩,
   ⟨"generating_audio", "Gerando áudio", "Gerando áudio..."⟩,
   ⟨"merging_audio", "Concatenando áudio", "Concatenando áudio..."⟩,
   ⟨"transcribing", "Transcrevendo", "Transcrevendo áudio..."⟩,
   ⟨"analyzing_scenes", "Analisando cenas", "Analisando cenas..."⟩,
   ⟨"selecting_music", "Selecionando música", "Selecionando música..."⟩,
   ⟨"generating_images", "Gerando imagens", "Gerando imagens..."⟩,
   ⟨"mixing_audio", "Mixando áudio", "Mixando áudio..."⟩,
   ⟨"composing_video", "Montando vídeo", "Montando vídeo..."⟩]

/-- Function getStepIndex of the ProgressTracker component: the index of the
step whose key equals the status, and -1 when the status is not a step key
(findIndex followed by the redundant index >= 0 guard). -/
def getStepIndex (status : String) : Int :=
  match STEPS.findIdx? (fun s => s.key == status) with
  | some i => (i : Int)
  | none => -1

/-- Closure getStepStatus of the ProgressTracker component, with the
captured currentStepIndex = getStepIndex job.status made explicit; index is
the ordinal of the step being rendered. -/
def getStepStatus (job : Job) (index : Int) : String :=
  let currentStepIndex := getStepIndex job.status
  if job.status = "completed" then "completed"
  else if job.status = "failed" then
    (if index ≤ currentStepIndex then "failed" else "pending")
  else if index < currentStepIndex then "completed"
  else if index = currentStepIndex then "active"
  else "pending"

/-- JavaScript String.prototype.includes: pat occurs as a contiguous
substring of s (case-sensitive). -/
def jsIncludes (s pat : String) : Bool :=
  s.data.tails.any (fun t => pat.data.isPrefixOf t)

/-- Function getLogColor of the ProgressTracker component: the css colour
class chosen for a log line by the chain of case-sensitive includes tests. -/
def getLogColor (log : String) : String :=
  if jsIncludes log "ERROR" || jsIncludes log "error" || jsIncludes log "Error"
      || jsIncludes log "failed" || jsIncludes log "Failed" then
    "text-red-400"
  else if jsIncludes log "WARNING" || jsIncludes log "warning"
      || jsIncludes log "Warning" || jsIncludes log "retry"
      || jsIncludes log "Retry" then
    "text-yellow-400"
  else if jsIncludes log "SUCCESS" || jsIncludes log "success"
      || jsIncludes log "Successfully" || jsIncludes log "completed"
      || jsIncludes log "Generated" then
    "text-green-400"
  else
    "text-gray-300"

/-- Modelled from the spec for comparison (spec section 4.4, log severity
classification): a case-insensitive substring match in priority order,
realised by lowercasing the line and matching lowercase keywords.  Named
separately from getLogColor so the two can be compared. -/
def specLogColor (log : String) : String :=
  let l : String := ⟨log.data.map Char.toLower⟩
  if jsIncludes l "error" || jsIncludes l "failed" then "text-red-400"
  else if jsIncludes l "warning" || jsIncludes l "retry" then "text-yellow-400"
  else if jsIncludes l "success" || jsIncludes l "completed"
      || jsIncludes l "generated" then "text-green-400"
  else "text-gray-300"

/-- The keyword variants getLogColor actually tests for, per severity. -/
def errorKeywords : List String := ["ERROR", "error", "Error", "failed", "Failed"]

/-- Warning keyword variants of getLogColor. -/
def warningKeywords : List String :=
  ["WARNING", "warning", "Warning", "retry", "Retry"]

/-- Success keyword variants of getLogColor. -/
def successKeywords : List String :=
  ["SUCCESS", "success", "Successfully", "completed", "Generated"]

/-- Whether the log line contains at least one of the keywords. -/
def containsAny (log : String) (keys : List String) : Bool :=
  keys.any (fun k => jsIncludes log k)

/-- View modes of the BatchPanel component (type ViewMode). -/
inductive ViewMode
  | create
  | list
  | details
  deriving DecidableEq, Repr

/-- Batch record as read by the polling effect of BatchPanel: only batchId
and status are consulted. -/
structure Batch where
  batchId : String
  status : String
  deriving DecidableEq, Repr

/-- The polling effect of BatchPanel (part of the batch page, lines 93-104):
given the view mode and the currently displayed batch, it installs a
repeating refetch of the batch, returning the polled batchId and the fixed
interval in ms, or none when no interval is installed.  The effect returns
early unless the details view is active and the batch status is one of
pending, processing, paused; its cleanup removes the interval whenever the
dependencies change, so the returned value is the complete description of
the polling in that state. -/
def batchPollSchedule (viewMode : ViewMode) (currentBatch : Option Batch) :
    Option (String × Nat) :=
  if viewMode ≠ ViewMode.details ∨ currentBatch = none then none
  else
    match currentBatch with
    | none => none
    | some b =>
      if ["pending", "processing", "paused"].contains b.status then
        some (b.batchId, 2000)
      else none

/-- Character-list version of snakeToCamel (frontend/src/lib/api.ts):
str.replace with the global regex underscore-then-lowercase-letter, the
matched letter replaced by its upper case.  The regex engine scans left to
right; a failed match at an underscore advances one character. -/
def snakeToCamelChars : List Char → List Char
  | [] => []
  | '_' :: c :: rest =>
    if 97 ≤ c.toNat ∧ c.toNat ≤ 122 then c.toUpper :: snakeToCamelChars rest
    else '_' :: snakeToCamelChars (c :: rest)
  | c :: rest => c :: snakeToCamelChars rest

/-- Function snakeToCamel of frontend/src/lib/api.ts on strings. -/
def snakeToCamel (s : String) : String :=
  ⟨snakeToCamelChars s.data⟩

/-- Character-list version of camelToSnake (frontend/src/lib/api.ts):
str.replace with the global regex matching one upper-case letter, replaced
by an underscore followed by its lower case. -/
def camelToSnakeChars : List Char → List Char
  | [] => []
  | c :: rest =>
    if 65 ≤ c.toNat ∧ c.toNat ≤ 90 then '_' :: c.toLower :: camelToSnakeChars rest
    else c :: camelToSnakeChars rest

/-- Function camelToSnake of frontend/src/lib/api.ts on strings. -/
def camelToSnake (s : String) : String :=
  ⟨camelToSnakeChars s.data⟩

/-- Timeout-shaped error message produced by the axios response interceptor
of frontend/src/lib/api.ts for ECONNABORTED (request timeout). -/
def busyMessage : String :=
  "Servidor ocupado processando. A geração continua em segundo plano."

/-- A session in mid-flight: a job is stored and generation is active, the
previously scheduled timer has already fired (the situation in which
pollJobStatus runs). -/
def pollingState : GenState :=
  { initialState with isGenerating := true, jobIdRef := some "job-1" }

/-- Session right after a first successful startGeneration: one poll timer
pending, its id tracked by pollTimeoutRef. -/
def trackedTimerState : GenState :=
  startGeneration defaultPollInterval initialState (Except.ok "job-1")

/-- Session after a second startGeneration issued while the first poll timer
was still pending. -/
def doubleStartState : GenState :=
  startGeneration defaultPollInterval trackedTimerState (Except.ok "job-2")

/-! Helper lemmas shared by several proofs. -/

/-- Char.ofNat of a scalar value below the surrogate range keeps its value. -/
theorem char_toNat_ofNat_of_lt {m : Nat} (h : m < 55296) :
    (Char.ofNat m).toNat = m := by
  have hv : m.isValidChar := Or.inl h
  rw [Char.ofNat, dif_pos hv]
  rfl

/-- Upper-casing an ASCII lower-case letter subtracts 32 from its value. -/
theorem toUpper_toNat_of_lower (c : Char) (h1 : 97 ≤ c.toNat) (h2 : c.toNat ≤ 122) :
    c.toUpper.toNat = c.toNat - 32 := by
  rw [Char.toUpper, if_pos ⟨h1, h2⟩]
  exact char_toNat_ofNat_of_lt (by omega)

/-- Lower-casing the upper-cased form of an ASCII lower-case letter is the
identity. -/
theorem toLower_toUpper_of_lower (c : Char) (h1 : 97 ≤ c.toNat) (h2 : c.toNat ≤ 122) :
    c.toUpper.toLower = c := by
  have h4 := toUpper_toNat_of_lower c h1 h2
  rw [Char.toLower, h4, if_pos (by omega), Nat.sub_add_cancel (by omega),
    Char.ofNat_toNat]

/-- C1, claim as frozen, refuted at a concrete input: the claim asserts that
under consecutive transient-timeout failures the poller stops polling
exactly on the 10th failure.  In the source the catch block of pollJobStatus
stops on the FIRST failure: after one timeout-classified failure (the
interceptor message busyMessage, consecutive failure number 1 < 10) the
session is already aborted — generation inactive, the error surfaced as
fatal, and no retry timer pending — so a failure other than the 10th ends
the polling session. -/
theorem pollJobStatus_stops_on_first_timeout :
    (pollJobStatus defaultPollInterval
        (fireTimer trackedTimerState 1) (Except.error busyMessage)
        (Except.error "unused")).isGenerating = false ∧
    (pollJobStatus defaultPollInterval
        (fireTimer trackedTimerState 1) (Except.error busyMessage)
        (Except.error "unused")).pendingTimers = [] ∧
    (pollJobStatus defaultPollInterval
        (fireTimer trackedTimerState 1) (Except.error busyMessage)
        (Except.error "unused")).error = some busyMessage := by
  decide

/-- C1 (amended): on the first fetch failure of any classification the
poller stops polling, surfaces that error as fatal, and transitions the
client-visible generation state to failed (isGenerating false, error set);
it does not touch currentJob, so nothing is asserted about the server-side
job itself, and no retry timer is ever scheduled after a failure. -/
theorem pollJobStatus_error_aborts (pollInterval : Nat) (s : GenState)
    (msg : String) (fetchResult : Except String JobResult)
    (hid : s.jobIdRef.isSome) :
    pollJobStatus pollInterval s (Except.error msg) fetchResult =
      { s with error := some msg, isGenerating := false } := by
  obtain ⟨jid, hjid⟩ := Option.isSome_iff_exists.mp hid
  simp [pollJobStatus, hjid]

/-- Witness for pollJobStatus_error_aborts at a concrete session state. -/
theorem pollJobStatus_error_aborts_witness :
    pollJobStatus defaultPollInterval pollingState (Except.error "timeout")
        (Except.error "unused") =
      { pollingState with error := some "timeout", isGenerating := false } := by
  exact pollJobStatus_error_aborts defaultPollInterval pollingState "timeout"
    (Except.error "unused") rfl

/-- C2, claim as frozen, refuted at a concrete input: the claim asserts that
every in-budget fetch failure schedules a retry with a class-dependent
backoff delay (5000 ms for the first timeout-like failure, 4000 ms for the
first generic failure at the default base interval).  In the source no
retry is scheduled on any fetch failure: after the first generic failure
(well within both budgets) the pending-timer set is empty and generation
has been aborted. -/
theorem pollJobStatus_no_retry_on_failure :
    (pollJobStatus defaultPollInterval
        (fireTimer trackedTimerState 1) (Except.error "Network Error")
        (Except.error "unused")).pendingTimers = [] ∧
    (pollJobStatus defaultPollInterval
        (fireTimer trackedTimerState 1) (Except.error "Network Error")
        (Except.error "unused")).isGenerating = false := by
  decide

/-- C2 (amended): pollJobStatus never schedules a backoff retry: every timer
pending after a poll step either was already pending before it or is the
single continuation poll scheduled with the fixed delay pollInterval (the
success path for a non-terminal status); in particular a fetch failure
schedules nothing. -/
theorem pollJobStatus_never_schedules_backoff (pollInterval : Nat)
    (s : GenState) (fetchStatus : Except String Job)
    (fetchResult : Except String JobResult) (t : Timer)
    (ht : t ∈ (pollJobStatus pollInterval s fetchStatus fetchResult).pendingTimers) :
    t ∈ s.pendingTimers ∨ t.delay = pollInterval := by
  simp only [pollJobStatus, schedulePoll] at ht
  split at ht
  · exact Or.inl ht
  · split at ht
    · exact Or.inl ht
    · split at ht
      · split at ht
        · exact Or.inl ht
        · exact Or.inl ht
      · split at ht
        · exact Or.inl ht
        · simp only [List.mem_append, List.mem_singleton] at ht
          rcases ht with ht | ht
          · exact Or.inl ht
          · subst ht
            exact Or.inr rfl

/-- Witness for pollJobStatus_never_schedules_backoff: a timer pending
before a failing poll is still the only explanation for its being pending
after it. -/
theorem pollJobStatus_never_schedules_backoff_witness :
    (⟨7, 77⟩ : Timer) ∈
        ({ pollingState with pendingTimers := [⟨7, 77⟩] } : GenState).pendingTimers ∨
      (⟨7, 77⟩ : Timer).delay = defaultPollInterval := by
  exact pollJobStatus_never_schedules_backoff defaultPollInterval
    { pollingState with pendingTimers := [⟨7, 77⟩] }
    (Except.ok ⟨"processing_text", none⟩) (Except.error "unused")
    ⟨7, 77⟩ (by decide)

/-- C4 (code bug): starting a new generation while the previous poll timer
is still pending does NOT clear it; startGeneration overwrites
pollTimeoutRef without clearTimeout, so after a second startGeneration two
poll timers are pending at once, both of which would drive the displayed
state of the job stored in jobIdRef. -/
theorem startGeneration_orphans_previous_timer :
    trackedTimerState.pendingTimers = [⟨1, 2000⟩] ∧
    doubleStartState.pendingTimers = [⟨1, 2000⟩, ⟨2, 2000⟩] ∧
    doubleStartState.pollTimeoutRef = some 2 := by
  decide

/-- C3 (confirmed): on a successful status fetch, a completed job makes the
poller fetch the result payload and finish successfully; a failed or
cancelled job finishes with the error field exposed when present (nonempty)
and the fallback message otherwise; any other status schedules exactly one
next poll with the fixed base interval pollInterval, whose default is
2000 ms. -/
theorem pollJobStatus_success_branches (pollInterval : Nat) (s : GenState)
    (j : Job) (fetchResult : Except String JobResult)
    (hid : s.jobIdRef.isSome) :
    (j.status = "completed" → ∀ r, fetchResult = Except.ok r →
        pollJobStatus pollInterval s (Except.ok j) fetchResult =
          { s with currentJob := some j, result := some r,
                   isGenerating := false }) ∧
    (j.status = "failed" ∨ j.status = "cancelled" →
        pollJobStatus pollInterval s (Except.ok j) fetchResult =
          { s with currentJob := some j, isGenerating := false,
                   error := some (jsOrElse j.error "Job failed") } ∧
        (∀ e, j.error = some e → e ≠ "" → jsOrElse j.error "Job failed" = e) ∧
        jsOrElse none "Job failed" = "Job failed") ∧
    (j.status ≠ "completed" → j.status ≠ "failed" → j.status ≠ "cancelled" →
        pollJobStatus pollInterval s (Except.ok j) fetchResult =
          schedulePoll { s with currentJob := some j } pollInterval ∧
        (pollJobStatus pollInterval s (Except.ok j) fetchResult).pendingTimers =
          s.pendingTimers ++ [⟨s.nextTimerId, pollInterval⟩]) ∧
    defaultPollInterval = 2000 := by
  obtain ⟨jid, hjid⟩ := Option.isSome_iff_exists.mp hid
  refine ⟨?_, ?_, ?_, rfl⟩
  · intro hc r hr
    subst hr
    simp [pollJobStatus, hjid, hc]
  · intro hfc
    refine ⟨?_, ?_, rfl⟩
    · rcases hfc with h | h <;> simp [pollJobStatus, hjid, h]
    · intro e he hne
      simp [jsOrElse, he, hne]
  · intro h1 h2 h3
    constructor
    · simp [pollJobStatus, hjid, h1, h2, h3]
    · simp [pollJobStatus, hjid, h1, h2, h3, schedulePoll]

/-- Witness for pollJobStatus_success_branches: a poll observing the
non-terminal status processing_text reschedules itself once at the base
interval. -/
theorem pollJobStatus_success_branches_witness :
    pollJobStatus defaultPollInterval pollingState
        (Except.ok ⟨"processing_text", none⟩) (Except.error "unused") =
      schedulePoll { pollingState with
        currentJob := some ⟨"processing_text", none⟩ } defaultPollInterval := by
  exact ((pollJobStatus_success_branches defaultPollInterval pollingState
    ⟨"processing_text", none⟩ (Except.error "unused") rfl).2.2.1
    (by decide) (by decide) (by decide)).1

/-- C5 (confirmed): the derived per-step UI state of the ProgressTracker is
completed for every step when the job is completed; for a failed job it is
failed on ordinals up to getStepIndex of the status (which is -1 for the
non-step status failed, so every step shows pending) and pending beyond;
for every other status it is the completed/active/pending trichotomy around
getStepIndex; and getStepIndex is -1 exactly on statuses outside the
nine-step catalogue. -/
theorem getStepStatus_matches_catalogue (job : Job) (i : Int) :
    (job.status = "completed" → getStepStatus job i = "completed") ∧
    (job.status = "failed" →
      getStepStatus job i =
        (if i ≤ getStepIndex job.status then "failed" else "pending")) ∧
    (job.status ≠ "completed" → job.status ≠ "failed" →
      getStepStatus job i =
        (if i < getStepIndex job.status then "completed"
         else if i = getStepIndex job.status then "active" else "pending")) ∧
    ((∀ st ∈ STEPS, st.key ≠ job.status) → getStepIndex job.status = -1) := by
  refine ⟨?_, ?_, ?_, ?_⟩
  · intro h
    simp [getStepStatus, h]
  · intro h
    simp [getStepStatus, h]
  · intro h1 h2
    simp [getStepStatus, h1, h2]
  · intro h
    have hnone : STEPS.findIdx? (fun st => st.key == job.status) = none := by
      rw [List.findIdx?_eq_none_iff]
      intro st hst
      simpa using h st hst
    simp [getStepIndex, hnone]

/-- Witness for getStepStatus_matches_catalogue: a failed job shows every
step as pending, because getStepIndex of failed is -1. -/
theorem getStepStatus_matches_catalogue_witness :
    getStepStatus ⟨"failed", none⟩ 0 =
      (if (0 : Int) ≤ getStepIndex "failed" then "failed" else "pending") := by
  exact (getStepStatus_matches_catalogue ⟨"failed", none⟩ 0).2.1 rfl

/-- C6, claim as frozen, refuted at a concrete input: the claim asserts the
log classification is a case-insensitive substring match (specLogColor); on
the line containing the all-lower-case word generated the case-insensitive
classifier yields success while getLogColor of the source tests only for
the capitalised variant Generated and yields informational. -/
theorem getLogColor_not_case_insensitive :
    specLogColor "generated 3 images" = "text-green-400" ∧
    getLogColor "generated 3 images" = "text-gray-300" := by
  decide

/-- C6 (amended): the classification of getLogColor is a case-sensitive
substring match over the explicit keyword variant lists, in priority order:
one of ERROR, error, Error, failed, Failed makes a line an error; else one
of WARNING, warning, Warning, retry, Retry makes it a warning; else one of
SUCCESS, success, Successfully, completed, Generated makes it a success;
else it is informational. -/
theorem getLogColor_keyword_variants (log : String) :
    getLogColor log =
      if containsAny log errorKeywords then "text-red-400"
      else if containsAny log warningKeywords then "text-yellow-400"
      else if containsAny log successKeywords then "text-green-400"
      else "text-gray-300" := by
  simp only [getLogColor, containsAny, errorKeywords, warningKeywords,
    successKeywords, List.any_cons, List.any_nil, Bool.or_false,
    Bool.or_assoc]

/-- C7 (confirmed): the batch-detail polling effect installs a 2000 ms
refetch interval exactly when the details view is active and the displayed
batch status is pending, processing or paused; with another view mode, no
batch, or a terminal batch status it installs nothing, so no refetch ever
happens there. -/
theorem batchPollSchedule_details_only (vm : ViewMode) (b? : Option Batch) :
    (∀ b, b? = some b → vm = ViewMode.details →
        (b.status = "pending" ∨ b.status = "processing" ∨ b.status = "paused") →
        batchPollSchedule vm b? = some (b.batchId, 2000)) ∧
    (vm ≠ ViewMode.details → batchPollSchedule vm b? = none) ∧
    batchPollSchedule vm none = none ∧
    (∀ b, b? = some b →
        (b.status = "completed" ∨ b.status = "failed" ∨ b.status = "cancelled") →
        batchPollSchedule vm b? = none) := by
  refine ⟨?_, ?_, ?_, ?_⟩
  · intro b hb hvm hst
    subst hb
    subst hvm
    rcases hst with h | h | h <;> simp [batchPollSchedule, h]
  · intro hvm
    simp [batchPollSchedule, hvm]
  · simp [batchPollSchedule]
  · intro b hb hst
    subst hb
    rcases hst with h | h | h <;> simp [batchPollSchedule, h]

/-- Witness for batchPollSchedule_details_only: a processing batch in the
details view is polled every 2000 ms. -/
theorem batchPollSchedule_details_only_witness :
    batchPollSchedule ViewMode.details (some ⟨"batch-1", "processing"⟩) =
      some ("batch-1", 2000) := by
  exact (batchPollSchedule_details_only ViewMode.details
    (some ⟨"batch-1", "processing"⟩)).1 ⟨"batch-1", "processing"⟩ rfl rfl
    (Or.inr (Or.inl rfl))

/-- C8, claim as frozen, refuted at a concrete input: the claim asserts that
reset cancels ANY pending poll timer regardless of prior state.  In the
reachable state doubleStartState (a second startGeneration issued while the
first poll timer was pending) pollTimeoutRef tracks only the second timer,
so reset clears that one and leaves the orphaned first timer pending. -/
theorem reset_misses_orphaned_timer :
    (reset doubleStartState).pendingTimers = [⟨1, 2000⟩] ∧
    (reset doubleStartState).pendingTimers ≠ [] := by
  decide

/-- C8 (amended): for every prior state, reset clears the stored job
reference, current job, result, error and text analysis to null, marks
generation inactive, and cancels the currently tracked pending poll timer
(every timer still pending afterwards was pending before and is not the one
pollTimeoutRef tracks — a timer orphaned by an overwrite of the ref is not
cancelled); and reset is idempotent. -/
theorem reset_restores_initial_session (s : GenState) :
    (reset s).jobIdRef = none ∧ (reset s).isGenerating = false ∧
    (reset s).currentJob = none ∧ (reset s).result = none ∧
    (reset s).error = none ∧ (reset s).textAnalysis = none ∧
    (∀ t ∈ (reset s).pendingTimers,
        t ∈ s.pendingTimers ∧ s.pollTimeoutRef ≠ some t.id) ∧
    reset (reset s) = reset s := by
  refine ⟨rfl, rfl, rfl, rfl, rfl, rfl, ?_, ?_⟩
  · intro t ht
    cases hr : s.pollTimeoutRef with
    | none =>
      simp only [reset, clearTimeoutRef, hr] at ht
      exact ⟨ht, by simp [hr]⟩
    | some x =>
      simp only [reset, clearTimeoutRef, hr, List.mem_filter,
        decide_eq_true_eq] at ht
      refine ⟨ht.1, ?_⟩
      intro he
      injection he with he2
      exact ht.2 he2.symm
  · show reset (reset s) = reset s
    simp only [reset]
    cases hr : s.pollTimeoutRef with
    | none => simp [clearTimeoutRef]
    | some x => simp [clearTimeoutRef, List.filter_filter]

/-- Witness for reset_restores_initial_session: reset is idempotent on a
session with a pending tracked timer. -/
theorem reset_restores_initial_session_witness :
    reset (reset trackedTimerState) = reset trackedTimerState := by
  exact (reset_restores_initial_session trackedTimerState).2.2.2.2.2.2.2

/-- C9 (confirmed, implicit frame property): cancelGeneration only ever
touches the pending poll timer set and the isGenerating flag; currentJob,
result, error, textAnalysis, jobIdRef and even pollTimeoutRef are
unchanged; with no stored jobId it changes nothing at all; when the server
cancel request fails the state is entirely unchanged (the failure is
swallowed); on success generation is inactive and the only timer that can
stop being pending is the tracked one, no timer being added. -/
theorem cancelGeneration_frame (s : GenState) (req : Except String Unit) :
    (s.jobIdRef = none → cancelGeneration s req = s) ∧
    (∀ e, req = Except.error e → cancelGeneration s req = s) ∧
    ((cancelGeneration s req).currentJob = s.currentJob ∧
     (cancelGeneration s req).result = s.result ∧
     (cancelGeneration s req).error = s.error ∧
     (cancelGeneration s req).textAnalysis = s.textAnalysis ∧
     (cancelGeneration s req).jobIdRef = s.jobIdRef ∧
     (cancelGeneration s req).pollTimeoutRef = s.pollTimeoutRef ∧
     (cancelGeneration s req).nextTimerId = s.nextTimerId) ∧
    (s.jobIdRef.isSome → req = Except.ok () →
      (cancelGeneration s req).isGenerating = false ∧
      ∀ t ∈ s.pendingTimers,
        t ∈ (cancelGeneration s req).pendingTimers ∨
          s.pollTimeoutRef = some t.id) ∧
    (∀ t ∈ (cancelGeneration s req).pendingTimers, t ∈ s.pendingTimers) := by
  cases hj : s.jobIdRef with
  | none =>
    refine ⟨fun _ => by simp [cancelGeneration, hj], ?_, ?_, ?_, ?_⟩
    · intro e _
      simp [cancelGeneration, hj]
    · simp [cancelGeneration, hj]
    · intro hs
      exact absurd hs (by simp)
    · simp [cancelGeneration, hj]
  | some jid =>
    cases req with
    | error e =>
      refine ⟨fun h => absurd h (by simp),
        fun _ _ => by simp [cancelGeneration, hj], ?_, ?_, ?_⟩
      · simp [cancelGeneration, hj]
      · intro _ hok
        exact absurd hok (by simp)
      · simp [cancelGeneration, hj]
    | ok u =>
      cases u
      refine ⟨fun h => absurd h (by simp),
        fun e he => by exact absurd he (by simp), ?_, ?_, ?_⟩
      · simp [cancelGeneration, hj]
      · intro _ _
        refine ⟨by simp [cancelGeneration, hj], ?_⟩
        intro t ht
        cases hr : s.pollTimeoutRef with
        | none => simp [cancelGeneration, hj, clearTimeoutRef, hr, ht]
        | some x =>
          by_cases hx : t.id = x
          · exact Or.inr (by rw [hx])
          · refine Or.inl ?_
            simp [cancelGeneration, hj, clearTimeoutRef, hr, List.mem_filter]
            exact ⟨ht, hx⟩
      · intro t ht
        cases hr : s.pollTimeoutRef with
        | none => simpa [cancelGeneration, hj, clearTimeoutRef, hr] using ht
        | some x =>
          simp only [cancelGeneration, hj, clearTimeoutRef, hr,
            List.mem_filter] at ht
          exact ht.1

/-- Witness for cancelGeneration_frame: with no stored jobId a cancel is a
no-op. -/
theorem cancelGeneration_frame_witness :
    cancelGeneration initialState (Except.ok ()) = initialState := by
  exact (cancelGeneration_frame initialState (Except.ok ())).1 rfl

/-- Round trip over character lists: camelToSnakeChars undoes
snakeToCamelChars on any list without ASCII upper-case letters, because the
only upper-case letters snakeToCamelChars produces come from replacing an
underscore-lowercase pair, which camelToSnakeChars restores. -/
theorem camelToSnakeChars_snakeToCamelChars (l : List Char)
    (h : ∀ c ∈ l, ¬ (65 ≤ c.toNat ∧ c.toNat ≤ 90)) :
    camelToSnakeChars (snakeToCamelChars l) = l := by
  induction l using snakeToCamelChars.induct with
  | case1 => rfl
  | case2 c rest hc ih =>
    rw [snakeToCamelChars]
    simp only [if_pos hc]
    rw [camelToSnakeChars]
    rw [if_pos ⟨by rw [toUpper_toNat_of_lower c hc.1 hc.2]; omega,
                by rw [toUpper_toNat_of_lower c hc.1 hc.2]; omega⟩]
    rw [toLower_toUpper_of_lower c hc.1 hc.2]
    rw [ih (fun x hx => h x (by simp [hx]))]
  | case3 c rest hc ih =>
    rw [snakeToCamelChars]
    simp only [if_neg hc]
    rw [camelToSnakeChars]
    rw [if_neg (by decide)]
    rw [ih (fun x hx => h x (by simp at hx ⊢; tauto))]
  | case4 c rest hne ih =>
    have h1 : snakeToCamelChars (c :: rest) = c :: snakeToCamelChars rest := by
      rw [snakeToCamelChars.eq_def]
      split
      · rename_i heq
        exact absurd heq (by simp)
      · rename_i c1 rest1 heq
        injection heq with e1 e2
        exact (hne c1 rest1 e1 e2).elim
      · rename_i c1 rest1 hx heq
        injection heq with e1 e2
        subst e1
        subst e2
        rfl
    rw [h1, camelToSnakeChars]
    rw [if_neg (h c (by simp))]
    rw [ih (fun x hx => h x (by simp [hx]))]

/-- C10 (confirmed): for every key string without ASCII upper-case letters
(the snake case keys the backend produces), converting to camelCase with
snakeToCamel and back with camelToSnake is the identity, so the deep key
transformation applied to a response and then to a request round-trips
exactly on every key. -/
theorem camelToSnake_snakeToCamel_id (s : String)
    (h : ∀ c ∈ s.data, ¬ (65 ≤ c.toNat ∧ c.toNat ≤ 90)) :
    camelToSnake (snakeToCamel s) = s := by
  unfold camelToSnake snakeToCamel
  show String.mk (camelToSnakeChars (snakeToCamelChars s.data)) = s
  rw [camelToSnakeChars_snakeToCamelChars s.data h]

/-- Witness for camelToSnake_snakeToCamel_id at a concrete backend key. -/
theorem camelToSnake_snakeToCamel_id_witness :
    camelToSnake (snakeToCamel "chunks_completed") = "chunks_completed" := by
  exact camelToSnake_snakeToCamel_id "chunks_completed" (by decide)

end BambiExpress
